import Mathlib

/-!
Verification of the Digital Human wire-protocol and session-lifecycle layer.

The definitions below are shallow embeddings of the Python sources:
  python_sdk/tts_client.py          (binary TTS frame codec)
  python_sdk/stt_client.py          (STT request builder and client state)
  python_sdk/backend_server.py      (stream registry, join-room coordinator,
                                     streaming pipeline)
  python_sdk/digital_human_client.py (avatar-control client lifecycle)

Bytes are modelled as natural numbers below 256, byte strings as lists of
such numbers.  Python int.to_bytes / int.from_bytes with signed big-endian
semantics are modelled exactly, including the slice-clamping behaviour of
Python list slicing.
-/

namespace DigitalHuman

/-- Python slice `l[a:b]` (step 1): negative indices count from the end,
    out-of-range bounds clamp, an empty range yields the empty list. -/
def pySlice (l : List Nat) (a b : Int) : List Nat :=
  let n : Int := l.length
  let na : Nat := if a < 0 then (max (n + a) 0).toNat else (min a n).toNat
  let nb : Nat := if b < 0 then (max (n + b) 0).toNat else (min b n).toNat
  (l.drop na).take (nb - na)

/-- `x.to_bytes(4, "big", signed=True)` for `x` in the signed 32-bit range:
    big-endian two-complement bytes. -/
def int32ToBytesBE (x : Int) : List Nat :=
  let u := (x % 4294967296).toNat
  [u / 16777216 % 256, u / 65536 % 256, u / 256 % 256, u % 256]

/-- `struct.pack(">I", n)` : big-endian unsigned 32-bit bytes. -/
def nat32ToBytesBE (n : Nat) : List Nat :=
  [n / 16777216 % 256, n / 65536 % 256, n / 256 % 256, n % 256]

/-- `int.from_bytes(bs, "big", signed=True)` for canonical byte lists. -/
def bytesToIntBE (bs : List Nat) : Int :=
  let u : Nat := bs.foldl (fun a b => a * 256 + b) 0
  if 2 * u ≥ 256 ^ bs.length then (u : Int) - (256 : Int) ^ bs.length else (u : Int)

theorem int32ToBytesBE_length (x : Int) : (int32ToBytesBE x).length = 4 := rfl

/-- Decoding inverts encoding for every signed 32-bit value. -/
theorem bytesToIntBE_int32ToBytesBE (x : Int)
    (h1 : -2147483648 ≤ x) (h2 : x < 2147483648) :
    bytesToIntBE (int32ToBytesBE x) = x := by
  unfold bytesToIntBE int32ToBytesBE
  simp only [List.foldl, List.length]
  omega

/-! ## TTS wire codec (python_sdk/tts_client.py)

Protocol constants, the `Header` and `Optional` encoders, the framing of
`TTSClient._send_event_with_protocol`, and the decoder
`TTSClient._parse_response`.  Session ids and payloads are modelled as the
byte lists the Python code produces by UTF-8 encoding; `str.decode` on the
decode side is the identity on those byte lists. -/

def FULL_CLIENT_REQUEST : Nat := 1
def AUDIO_ONLY_RESPONSE : Nat := 11
def FULL_SERVER_RESPONSE : Nat := 9
def ERROR_INFORMATION : Nat := 15

def MsgTypeFlagWithEvent : Nat := 4

def EVENT_NONE : Int := 0
def EVENT_Start_Connection : Int := 1
def EVENT_FinishConnection : Int := 2
def EVENT_ConnectionStarted : Int := 50
def EVENT_ConnectionFailed : Int := 51
def EVENT_StartSession : Int := 100
def EVENT_FinishSession : Int := 102
def EVENT_SessionStarted : Int := 150
def EVENT_SessionFinished : Int := 152
def EVENT_SessionFailed : Int := 153
def EVENT_TaskRequest : Int := 200
def EVENT_TTSResponse : Int := 352

/-- `Header` of tts_client.py with its constructor defaults. -/
structure Header where
  protocol_version : Nat := 1
  header_size : Nat := 1
  message_type : Nat := 0
  message_type_specific_flags : Nat := 0
  serial_method : Nat := 0
  compression_type : Nat := 0
  reserved_data : Nat := 0

/-- `Header.as_bytes`: four header bytes; `(a << 4) | b` equals `a * 16 + b`
    for the nibble-sized fields the client uses. -/
def Header.as_bytes (h : Header) : List Nat :=
  [h.protocol_version * 16 + h.header_size,
   h.message_type * 16 + h.message_type_specific_flags,
   h.serial_method * 16 + h.compression_type,
   h.reserved_data]

/-- The optional block of a TTS frame (`Optional` in tts_client.py):
    event code, optional session id (UTF-8 bytes), optional sequence. -/
structure TTSOptional where
  event : Int := 0
  sessionId : Option (List Nat) := none
  sequence : Option Int := none

/-- `Optional.as_bytes`: event when nonzero, then length-prefixed session id
    when present, then sequence when present. -/
def TTSOptional.as_bytes (o : TTSOptional) : List Nat :=
  (if o.event ≠ EVENT_NONE then int32ToBytesBE o.event else [])
  ++ (match o.sessionId with
      | some sid => int32ToBytesBE (sid.length : Int) ++ sid
      | none => [])
  ++ (match o.sequence with
      | some sq => int32ToBytesBE sq
      | none => [])

/-- `TTSClient._send_event_with_protocol` with all three parts present:
    header bytes, optional bytes, 4-byte signed payload length, payload. -/
def sendEventWithProtocol (header optional payload : List Nat) : List Nat :=
  header ++ optional ++ int32ToBytesBE (payload.length : Int) ++ payload

/-- The decoded frame built by `TTSClient._parse_response`. -/
structure TTSResponse where
  protocol_version : Nat
  header_size : Nat
  message_type : Nat
  message_type_specific_flags : Nat
  event : Int
  sessionId : Option (List Nat)
  connectionId : Option (List Nat)
  response_meta_json : Option (List Nat)
  errorCode : Int
  payload : Option (List Nat)

/-- `TTSClient._read_res_content`: 4-byte signed size, then that many bytes. -/
def readResContent (res : List Nat) (offset : Int) : List Nat × Int :=
  let contentSize := bytesToIntBE (pySlice res offset (offset + 4))
  let content := pySlice res (offset + 4) (offset + 4 + contentSize)
  (content, offset + 4 + contentSize)

/-- `TTSClient._read_res_payload`: same layout as `readResContent`. -/
def readResPayload (res : List Nat) (offset : Int) : List Nat × Int :=
  let payloadSize := bytesToIntBE (pySlice res offset (offset + 4))
  let payload := pySlice res (offset + 4) (offset + 4 + payloadSize)
  (payload, offset + 4 + payloadSize)

/-- `TTSClient._parse_response`.  In the source the branch condition is
    `message_type == FULL_SERVER_RESPONSE or AUDIO_ONLY_RESPONSE`, which is
    truthy for every message type because the constant is nonzero, so the
    event branch is always taken and the ERROR_INFORMATION branch is dead;
    the model reproduces that truthiness. -/
def parseResponse (res : List Nat) : TTSResponse :=
  let b0 := res.getD 0 0
  let b1 := res.getD 1 0
  let base : TTSResponse :=
    { protocol_version := b0 / 16 % 16
      header_size := b0 % 16
      message_type := b1 / 16 % 16
      message_type_specific_flags := b1 % 16
      event := 0, sessionId := none, connectionId := none
      response_meta_json := none, errorCode := 0, payload := none }
  if base.message_type = FULL_SERVER_RESPONSE ∨ AUDIO_ONLY_RESPONSE ≠ 0 then
    if base.message_type_specific_flags = MsgTypeFlagWithEvent then
      let ev := bytesToIntBE (pySlice res 4 8)
      if ev = EVENT_NONE then { base with event := ev }
      else if ev = EVENT_ConnectionStarted then
        { base with event := ev, connectionId := some (readResContent res 8).1 }
      else if ev = EVENT_ConnectionFailed then
        { base with event := ev, response_meta_json := some (readResContent res 8).1 }
      else if ev = EVENT_SessionStarted ∨ ev = EVENT_SessionFailed
           ∨ ev = EVENT_SessionFinished then
        let c1 := readResContent res 8
        let c2 := readResContent res c1.2
        { base with event := ev, sessionId := some c1.1,
                    response_meta_json := some c2.1 }
      else
        let c1 := readResContent res 8
        let p := readResPayload res c1.2
        { base with event := ev, sessionId := some c1.1, payload := some p.1 }
    else base
  else if base.message_type = ERROR_INFORMATION then
    let ec := bytesToIntBE (pySlice res 4 8)
    { base with errorCode := ec, payload := some (readResPayload res 8).1 }
  else base

theorem pySlice_nonneg (l : List Nat) (a b : Int) (ha : 0 ≤ a) (hab : a ≤ b) :
    pySlice l a b = (l.drop a.toNat).take (b - a).toNat := by
  unfold pySlice
  try dsimp only
  rw [if_neg (by omega), if_neg (by omega)]
  rcases le_or_lt (a : Int) l.length with hle | hgt
  · rcases le_or_lt (b : Int) l.length with hble | hbgt
    · have h1 : (min a (l.length : Int)).toNat = a.toNat := by omega
      have h2 : (min b (l.length : Int)).toNat = b.toNat := by omega
      rw [h1, h2]
      congr 1
      omega
    · have h1 : (min a (l.length : Int)).toNat = a.toNat := by omega
      have h2 : (min b (l.length : Int)).toNat = l.length := by omega
      rw [h1, h2]
      rw [List.take_eq_take]
      simp [List.length_drop]
      omega
  · have h1 : (min a (l.length : Int)).toNat = l.length := by omega
    have h2 : (l.drop l.length) = [] := by simp
    have h3 : l.drop a.toNat = [] := List.drop_eq_nil_of_le (by omega)
    rw [h1, h2, h3]
    simp

/-- Reading an exactly-aligned slice out of a concatenation. -/
theorem pySlice_read (pre mid post : List Nat) (a len : Int)
    (ha : a = (pre.length : Int)) (hlen : len = (mid.length : Int)) :
    pySlice (pre ++ mid ++ post) a (a + len) = mid := by
  subst ha hlen
  rw [pySlice_nonneg _ _ _ (by positivity) (by omega)]
  have h1 : ((pre.length : Int)).toNat = pre.length := by omega
  have h2 : ((pre.length : Int) + (mid.length : Int) - (pre.length : Int)).toNat
      = mid.length := by omega
  rw [h1, h2, List.append_assoc, List.drop_left, List.take_left]

/-- C1 (amended).  Round-trip of the TTS wire codec for the session-scoped
frames the client sends (event present and outside the server-dispatch set,
session id present, no sequence field): decoding the encoded frame returns
the same message type, flags, event, session id and payload.  The claim as
frozen also covers frames without a session id and frames with a sequence
field, and those fail: see the counterexample below. -/
theorem C1_frame_roundtrip
    (mt sm cm : Nat) (e : Int) (sid payload : List Nat)
    (hmt : mt < 16) (he1 : 0 < e) (he2 : e < 2147483648)
    (h50 : e ≠ 50) (h51 : e ≠ 51) (h150 : e ≠ 150) (h152 : e ≠ 152) (h153 : e ≠ 153)
    (hsid : sid.length < 2147483648) (hpay : payload.length < 2147483648) :
    parseResponse (sendEventWithProtocol
        (Header.as_bytes { message_type := mt,
                           message_type_specific_flags := MsgTypeFlagWithEvent,
                           serial_method := sm, compression_type := cm })
        (TTSOptional.as_bytes { event := e, sessionId := some sid })
        payload)
      = { protocol_version := 1, header_size := 1, message_type := mt,
          message_type_specific_flags := MsgTypeFlagWithEvent, event := e,
          sessionId := some sid, connectionId := none, response_meta_json := none,
          errorCode := 0, payload := some payload } := by
  have he0 : e ≠ EVENT_NONE := by simp [EVENT_NONE]; omega
  have hH : Header.as_bytes { message_type := mt,
                              message_type_specific_flags := MsgTypeFlagWithEvent,
                              serial_method := sm, compression_type := cm }
      = [17, mt * 16 + 4, sm * 16 + cm, 0] := by
    simp [Header.as_bytes, MsgTypeFlagWithEvent]
  have henc : sendEventWithProtocol
      (Header.as_bytes { message_type := mt,
                         message_type_specific_flags := MsgTypeFlagWithEvent,
                         serial_method := sm, compression_type := cm })
      (TTSOptional.as_bytes { event := e, sessionId := some sid })
      payload
      = 17 :: (mt * 16 + 4) :: (sm * 16 + cm) :: 0
        :: (int32ToBytesBE e ++ (int32ToBytesBE (sid.length : Int)
            ++ (sid ++ (int32ToBytesBE (payload.length : Int) ++ payload)))) := by
    simp [sendEventWithProtocol, TTSOptional.as_bytes, he0, hH]
  have hev : pySlice (17 :: (mt * 16 + 4) :: (sm * 16 + cm) :: 0
        :: (int32ToBytesBE e ++ (int32ToBytesBE (sid.length : Int)
            ++ (sid ++ (int32ToBytesBE (payload.length : Int) ++ payload))))) 4 8 = int32ToBytesBE e := by
    have h := pySlice_read [17, mt * 16 + 4, sm * 16 + cm, 0] (int32ToBytesBE e)
      (int32ToBytesBE (sid.length : Int)
        ++ (sid ++ (int32ToBytesBE (payload.length : Int) ++ payload))) 4 4
      (by simp) (by simp [int32ToBytesBE_length])
    simpa using h
  have hslen : pySlice (17 :: (mt * 16 + 4) :: (sm * 16 + cm) :: 0
        :: (int32ToBytesBE e ++ (int32ToBytesBE (sid.length : Int)
            ++ (sid ++ (int32ToBytesBE (payload.length : Int) ++ payload))))) 8 12 = int32ToBytesBE (sid.length : Int) := by
    have h := pySlice_read ([17, mt * 16 + 4, sm * 16 + cm, 0] ++ int32ToBytesBE e)
      (int32ToBytesBE (sid.length : Int))
      (sid ++ (int32ToBytesBE (payload.length : Int) ++ payload)) 8 4
      (by simp [int32ToBytesBE_length]) (by simp [int32ToBytesBE_length])
    simpa using h
  have hsidr : pySlice (17 :: (mt * 16 + 4) :: (sm * 16 + cm) :: 0
        :: (int32ToBytesBE e ++ (int32ToBytesBE (sid.length : Int)
            ++ (sid ++ (int32ToBytesBE (payload.length : Int) ++ payload))))) 12 (12 + (sid.length : Int)) = sid := by
    have h := pySlice_read ([17, mt * 16 + 4, sm * 16 + cm, 0] ++ int32ToBytesBE e
        ++ int32ToBytesBE (sid.length : Int)) sid
      (int32ToBytesBE (payload.length : Int) ++ payload) 12 (sid.length : Int)
      (by simp [int32ToBytesBE_length]) rfl
    simpa using h
  have hplen : pySlice (17 :: (mt * 16 + 4) :: (sm * 16 + cm) :: 0
        :: (int32ToBytesBE e ++ (int32ToBytesBE (sid.length : Int)
            ++ (sid ++ (int32ToBytesBE (payload.length : Int) ++ payload))))) (12 + (sid.length : Int)) (12 + (sid.length : Int) + 4)
      = int32ToBytesBE (payload.length : Int) := by
    have h := pySlice_read ([17, mt * 16 + 4, sm * 16 + cm, 0] ++ int32ToBytesBE e
        ++ int32ToBytesBE (sid.length : Int) ++ sid)
      (int32ToBytesBE (payload.length : Int)) payload
      (12 + (sid.length : Int)) 4
      (by simp [int32ToBytesBE_length]; omega) (by simp [int32ToBytesBE_length])
    simpa using h
  have hpayr : pySlice (17 :: (mt * 16 + 4) :: (sm * 16 + cm) :: 0
        :: (int32ToBytesBE e ++ (int32ToBytesBE (sid.length : Int)
            ++ (sid ++ (int32ToBytesBE (payload.length : Int) ++ payload)))))
        (12 + (sid.length : Int) + 4) (12 + (sid.length : Int) + 4 + (payload.length : Int))
      = payload := by
    have h := pySlice_read ([17, mt * 16 + 4, sm * 16 + cm, 0] ++ int32ToBytesBE e
        ++ int32ToBytesBE (sid.length : Int) ++ sid
        ++ int32ToBytesBE (payload.length : Int)) payload []
      (12 + (sid.length : Int) + 4) (payload.length : Int)
      (by simp [int32ToBytesBE_length]; omega) rfl
    simpa using h
  have hc1 : readResContent (17 :: (mt * 16 + 4) :: (sm * 16 + cm) :: 0
        :: (int32ToBytesBE e ++ (int32ToBytesBE (sid.length : Int)
            ++ (sid ++ (int32ToBytesBE (payload.length : Int) ++ payload))))) 8 = (sid, 12 + (sid.length : Int)) := by
    unfold readResContent
    try dsimp only
    norm_num
    rw [hslen, bytesToIntBE_int32ToBytesBE (sid.length : Int) (by omega) (by omega)]
    norm_num [hsidr]
  have hp1 : readResPayload (17 :: (mt * 16 + 4) :: (sm * 16 + cm) :: 0
        :: (int32ToBytesBE e ++ (int32ToBytesBE (sid.length : Int)
            ++ (sid ++ (int32ToBytesBE (payload.length : Int) ++ payload))))) (12 + (sid.length : Int))
      = (payload, 12 + (sid.length : Int) + 4 + (payload.length : Int)) := by
    unfold readResPayload
    try dsimp only
    rw [hplen, bytesToIntBE_int32ToBytesBE (payload.length : Int) (by omega) (by omega)]
    norm_num [hpayr]
  rw [henc]
  have hb0 : (17 :: (mt * 16 + 4) :: (sm * 16 + cm) :: 0
        :: (int32ToBytesBE e ++ (int32ToBytesBE (sid.length : Int)
            ++ (sid ++ (int32ToBytesBE (payload.length : Int) ++ payload))))).getD 0 0 = 17 := rfl
  have hb1 : (17 :: (mt * 16 + 4) :: (sm * 16 + cm) :: 0
        :: (int32ToBytesBE e ++ (int32ToBytesBE (sid.length : Int)
            ++ (sid ++ (int32ToBytesBE (payload.length : Int) ++ payload))))).getD 1 0 = mt * 16 + 4 := rfl
  unfold parseResponse
  try dsimp only
  rw [hb0, hb1]
  have hdiv : (mt * 16 + 4) / 16 % 16 = mt := by omega
  have hmod : (mt * 16 + 4) % 16 = 4 := by omega
  rw [hdiv, hmod]
  rw [if_pos (Or.inr (by decide : AUDIO_ONLY_RESPONSE ≠ 0))]
  rw [if_pos (by decide : (4 : Nat) = MsgTypeFlagWithEvent)]
  rw [hev, bytesToIntBE_int32ToBytesBE e (by omega) (by omega)]
  rw [if_neg he0]
  rw [if_neg (by simpa [EVENT_ConnectionStarted] using h50)]
  rw [if_neg (by simpa [EVENT_ConnectionFailed] using h51)]
  rw [if_neg (by simp only [EVENT_SessionStarted, EVENT_SessionFailed,
        EVENT_SessionFinished, not_or]; exact ⟨h150, h153, h152⟩)]
  rw [hc1]
  try dsimp only
  rw [hp1]
  norm_num [MsgTypeFlagWithEvent]


/-- C1 counterexample.  Two frames the client encodes break the round-trip:
the Start_Connection frame (event 1, no session id, payload 0x7b 0x7d) decodes
with an empty payload and the payload bytes misread as a session id, and a
TaskRequest frame carrying a sequence field decodes with a mangled payload,
because `_parse_response` never reads a sequence field. -/
theorem C1_frame_roundtrip_counterexample :
    ((parseResponse (sendEventWithProtocol
        (Header.as_bytes { message_type := FULL_CLIENT_REQUEST,
                           message_type_specific_flags := MsgTypeFlagWithEvent })
        (TTSOptional.as_bytes { event := EVENT_Start_Connection })
        [123, 125])).payload ≠ some [123, 125]
      ∧ (parseResponse (sendEventWithProtocol
          (Header.as_bytes { message_type := FULL_CLIENT_REQUEST,
                             message_type_specific_flags := MsgTypeFlagWithEvent })
          (TTSOptional.as_bytes { event := EVENT_Start_Connection })
          [123, 125])).sessionId ≠ none)
    ∧ (parseResponse (sendEventWithProtocol
        (Header.as_bytes { message_type := FULL_CLIENT_REQUEST,
                           message_type_specific_flags := MsgTypeFlagWithEvent,
                           serial_method := 1 })
        (TTSOptional.as_bytes { event := EVENT_TaskRequest, sessionId := some [97],
                                sequence := some 5 })
        [123, 125])).payload ≠ some [123, 125] := by
  decide

/-- C1 witness: the amended round-trip at a concrete TaskRequest frame. -/
theorem C1_frame_roundtrip_witness :
    parseResponse (sendEventWithProtocol
        (Header.as_bytes { message_type := 1,
                           message_type_specific_flags := MsgTypeFlagWithEvent,
                           serial_method := 1, compression_type := 0 })
        (TTSOptional.as_bytes { event := 200, sessionId := some [97, 98] })
        [123, 125])
      = { protocol_version := 1, header_size := 1, message_type := 1,
          message_type_specific_flags := MsgTypeFlagWithEvent, event := 200,
          sessionId := some [97, 98], connectionId := none, response_meta_json := none,
          errorCode := 0, payload := some [123, 125] } :=
  C1_frame_roundtrip 1 1 0 200 [97, 98] [123, 125] (by decide) (by decide)
    (by decide) (by decide) (by decide) (by decide) (by decide) (by decide)
    (by decide) (by decide)

/-! ## STT request builder and client state (python_sdk/stt_client.py)

The STT `Header` class is byte-identical to the TTS one and is reused.
Gzip compression is an opaque byte transformation `gz` passed as a
parameter: the claims proved here do not depend on its contents. -/

def CLIENT_FULL_REQUEST : Nat := 1
def CLIENT_AUDIO_ONLY_REQUEST : Nat := 2
def POS_SEQUENCE : Nat := 1
def NEG_WITH_SEQUENCE : Nat := 3
def COMPRESSION_GZIP : Nat := 1

/-- `RequestBuilder.new_audio_only_request`: header with POS or NEG flags,
    `struct.pack(">i", -seq if is_last else seq)`, then the length-prefixed
    gzip-compressed segment. -/
def new_audio_only_request (gz : List Nat → List Nat) (seq : Int)
    (segment : List Nat) (is_last : Bool) : List Nat :=
  let header : Header :=
    { message_type := CLIENT_AUDIO_ONLY_REQUEST,
      message_type_specific_flags := if is_last then NEG_WITH_SEQUENCE else POS_SEQUENCE,
      compression_type := COMPRESSION_GZIP }
  let compressed_segment := gz segment
  header.as_bytes ++ int32ToBytesBE (if is_last then -seq else seq)
    ++ nat32ToBytesBE compressed_segment.length ++ compressed_segment

/-- C2.  Sequence sign law for audio-only requests: the 4-byte signed field
    at offset 4 of the built request decodes to `-seq` when `is_last` and to
    `seq` unchanged otherwise, for every sequence number `struct.pack` accepts
    and every audio segment. -/
theorem C2_sequence_sign_law (gz : List Nat → List Nat) (seq : Int)
    (segment : List Nat) (is_last : Bool)
    (h1 : -2147483648 < seq) (h2 : seq < 2147483648) :
    bytesToIntBE (pySlice (new_audio_only_request gz seq segment is_last) 4 8)
      = if is_last then -seq else seq := by
  unfold new_audio_only_request
  try dsimp only
  have h := pySlice_read
    (Header.as_bytes { message_type := CLIENT_AUDIO_ONLY_REQUEST,
                       message_type_specific_flags :=
                         if is_last then NEG_WITH_SEQUENCE else POS_SEQUENCE,
                       compression_type := COMPRESSION_GZIP })
    (int32ToBytesBE (if is_last then -seq else seq))
    (nat32ToBytesBE (gz segment).length ++ gz segment) 4 4
    (by simp [Header.as_bytes]) (by simp [int32ToBytesBE_length])
  norm_num at h ⊢
  rw [h]
  exact bytesToIntBE_int32ToBytesBE _ (by cases is_last <;> simp <;> omega)
    (by cases is_last <;> simp <;> omega)

/-- C2 witness: the sign law at sequence 7 on a final two-byte segment. -/
theorem C2_sequence_sign_law_witness :
    bytesToIntBE (pySlice (new_audio_only_request (fun x => x) 7 [0, 0] true) 4 8)
      = -7 := by
  have h := C2_sequence_sign_law (fun x => x) 7 [0, 0] true (by decide) (by decide)
  simpa using h

/-! ## STT client state machine (python_sdk/stt_client.py, STTClient)

Per-connection state relevant to `send_audio` and
`_send_full_client_request`.  Both operations run their read-send-increment
section under `self._seq_lock`; the model makes each operation atomic, which
is exactly what the single-writer lock guarantees.  The outcome of the
underlying `websocket.send` is an oracle `send_ok`; a raising send is a
`send_ok = false` step. -/

structure STTConfig where
  sample_rate : Nat := 16000
  channels : Nat := 1
  bits : Nat := 16

/-- `CommonUtils.validate_pcm_audio`: even byte length, at most ten seconds
    of audio at the configured rate. -/
def validate_pcm_audio (audio_data : List Nat) (sample_rate channels : Nat) : Bool :=
  if audio_data.length % 2 ≠ 0 then false
  else if audio_data.length > sample_rate * channels * 2 * 10 then false
  else true

/-- `struct.pack("<I", n)` : little-endian unsigned 32-bit bytes. -/
def nat32ToBytesLE (n : Nat) : List Nat :=
  [n % 256, n / 256 % 256, n / 65536 % 256, n / 16777216 % 256]

/-- `struct.pack("<H", n)` : little-endian unsigned 16-bit bytes. -/
def nat16ToBytesLE (n : Nat) : List Nat :=
  [n % 256, n / 256 % 256]

/-- `CommonUtils.pcm_to_wav`: RIFF/WAVE header followed by the raw PCM. -/
def pcm_to_wav (pcm_data : List Nat) (sample_rate channels bits : Nat) : List Nat :=
  [82, 73, 70, 70] ++ nat32ToBytesLE (36 + pcm_data.length) ++ [87, 65, 86, 69]
  ++ [102, 109, 116, 32] ++ nat32ToBytesLE 16 ++ nat16ToBytesLE 1
  ++ nat16ToBytesLE channels ++ nat32ToBytesLE sample_rate
  ++ nat32ToBytesLE (sample_rate * channels * bits / 8)
  ++ nat16ToBytesLE (channels * bits / 8) ++ nat16ToBytesLE bits
  ++ [100, 97, 116, 97] ++ nat32ToBytesLE pcm_data.length ++ pcm_data

/-- STTClient connection-and-session state: the fields of `__init__` that
    `send_audio` reads or writes.  `websocket_open = some true` models a
    socket in the OPEN state, `some false` a socket in another state,
    `none` no socket. -/
structure STTState where
  is_connected : Bool
  websocket_open : Option Bool
  has_session : Bool
  config : STTConfig
  seq : Int
  audio_buffer : List (List Nat)
  buffer_size : Nat

/-- The state `STTClient.__init__` establishes: sequence counter 1,
    disconnected, no socket, no session, empty buffer. -/
def initSTTState : STTState :=
  { is_connected := false, websocket_open := none, has_session := false,
    config := {}, seq := 1, audio_buffer := [], buffer_size := 0 }

/-- `STTClient.send_audio`: guard checks, then under `_seq_lock` the WAV
    conversion, PCM validation, buffer bookkeeping, request build with the
    current sequence number, the send, and the post-send increment.  Returns
    the boolean result, the sequence number of a successful send, and the
    successor state. -/
def send_audio (st : STTState) (audio_data : List Nat) (is_last send_ok : Bool) :
    (Bool × Option Int) × STTState :=
  if st.is_connected = false then ((false, none), st)
  else if st.has_session = false then ((false, none), st)
  else if st.websocket_open ≠ some true then ((false, none), st)
  else if validate_pcm_audio audio_data st.config.sample_rate st.config.channels
      = false then ((false, none), st)
  else
    let st1 : STTState :=
      { st with audio_buffer := st.audio_buffer ++ [audio_data],
                buffer_size := st.buffer_size + audio_data.length }
    if send_ok then ((true, some st1.seq), { st1 with seq := st1.seq + 1 })
    else ((false, none), st1)

/-- `STTClient._send_full_client_request`: under `_seq_lock`, send with the
    current sequence number, then increment; a raising send leaves the
    counter untouched and propagates to `connect`. -/
def send_full_client_request (st : STTState) (send_ok : Bool) :
    (Bool × Option Int) × STTState :=
  if send_ok then ((true, some st.seq), { st with seq := st.seq + 1 })
  else ((false, none), st)

/-- One serialized sender operation on the STT client. -/
inductive STTOp where
  | sendAudioOp (audio_data : List Nat) (is_last send_ok : Bool)
  | fullClientRequestOp (send_ok : Bool)

def sttStep (st : STTState) : STTOp → (Bool × Option Int) × STTState
  | .sendAudioOp a l ok => send_audio st a l ok
  | .fullClientRequestOp ok => send_full_client_request st ok

/-- Run a list of serialized sender operations; collect the sequence numbers
    of the successful sends, in order. -/
def runSTT (st : STTState) : List STTOp → STTState × List Int
  | [] => (st, [])
  | op :: ops =>
      let r := sttStep st op
      let rest := runSTT r.2 ops
      (rest.1, r.1.2.toList ++ rest.2)

/-- Consecutive integers starting at `s`. -/
def intRange (s : Int) : Nat → List Int
  | 0 => []
  | n + 1 => s :: intRange (s + 1) n

theorem sttStep_seq (st : STTState) (op : STTOp) :
    (sttStep st op).1.2 = none ∧ (sttStep st op).2.seq = st.seq
    ∨ (sttStep st op).1.2 = some st.seq ∧ (sttStep st op).2.seq = st.seq + 1 := by
  cases op with
  | sendAudioOp a l ok =>
      unfold sttStep send_audio
      try dsimp only
      split
      case isTrue => simp
      case isFalse =>
        split
        case isTrue => simp
        case isFalse =>
          split
          case isTrue => simp
          case isFalse =>
            split
            case isTrue => simp
            case isFalse =>
              split
              case isTrue => right; constructor <;> rfl
              case isFalse => simp
  | fullClientRequestOp ok =>
      unfold sttStep send_full_client_request
      try dsimp only
      split
      case isTrue => right; constructor <;> rfl
      case isFalse => simp

theorem runSTT_trace (st : STTState) (ops : List STTOp) :
    (runSTT st ops).2 = intRange st.seq (runSTT st ops).2.length
    ∧ (runSTT st ops).1.seq = st.seq + ((runSTT st ops).2.length : Int) := by
  induction ops generalizing st with
  | nil => simp [runSTT, intRange]
  | cons op ops ih =>
    obtain ⟨ht, hs⟩ := ih (sttStep st op).2
    have hrun2 : (runSTT st (op :: ops)).2
        = (sttStep st op).1.2.toList ++ (runSTT (sttStep st op).2 ops).2 := by
      simp [runSTT]
    have hrun1 : (runSTT st (op :: ops)).1 = (runSTT (sttStep st op).2 ops).1 := by
      simp [runSTT]
    rcases sttStep_seq st op with ⟨h1, h2⟩ | ⟨h1, h2⟩
    · rw [h2] at ht hs
      rw [hrun2, hrun1, h1]
      simp only [Option.toList, List.nil_append]
      exact ⟨ht, hs⟩
    · rw [h2] at ht hs
      rw [hrun2, hrun1, h1]
      simp only [Option.toList, List.singleton_append, List.length_cons]
      refine ⟨?_, ?_⟩
      · rw [intRange]
        exact congrArg (List.cons st.seq) ht
      · rw [hs]
        push_cast
        ring

/-- C6.  From the initial client state (counter 1), any sequence of
    serialized `send_audio` and `_send_full_client_request` operations, with
    arbitrary guard failures and send failures interleaved, produces
    successful sends numbered exactly 1, 2, 3, ... with no duplicate and no
    gap, and the counter always equals 1 plus the number of successful
    sends.  Atomicity of each operation models the `_seq_lock` discipline. -/
theorem C6_sequence_counter_invariant (ops : List STTOp) :
    (runSTT initSTTState ops).2
      = intRange 1 (runSTT initSTTState ops).2.length
    ∧ (runSTT initSTTState ops).1.seq
      = 1 + ((runSTT initSTTState ops).2.length : Int) := by
  have h := runSTT_trace initSTTState ops
  simpa [initSTTState] using h

/-- C10.  `send_audio` returns false, leaving the sequence counter and every
    connection-state field unchanged, whenever the client is disconnected,
    has no session, has no OPEN socket, the PCM fails validation, or the
    underlying send raises. -/
theorem C10_send_audio_total_on_failure (st : STTState) (a : List Nat) (l ok : Bool)
    (h : st.is_connected = false ∨ st.has_session = false
       ∨ st.websocket_open ≠ some true
       ∨ validate_pcm_audio a st.config.sample_rate st.config.channels = false
       ∨ ok = false) :
    (send_audio st a l ok).1.1 = false
    ∧ (send_audio st a l ok).2.seq = st.seq
    ∧ (send_audio st a l ok).2.is_connected = st.is_connected
    ∧ (send_audio st a l ok).2.websocket_open = st.websocket_open
    ∧ (send_audio st a l ok).2.has_session = st.has_session := by
  unfold send_audio
  rcases h with h | h | h | h | h <;> (repeat' split) <;> simp_all

/-- C10 witness: `send_audio` on the just-initialized, disconnected client. -/
theorem C10_send_audio_total_on_failure_witness :
    (send_audio initSTTState [1] false true).1.1 = false
    ∧ (send_audio initSTTState [1] false true).2.seq = initSTTState.seq
    ∧ (send_audio initSTTState [1] false true).2.is_connected
        = initSTTState.is_connected
    ∧ (send_audio initSTTState [1] false true).2.websocket_open
        = initSTTState.websocket_open
    ∧ (send_audio initSTTState [1] false true).2.has_session
        = initSTTState.has_session :=
  C10_send_audio_total_on_failure initSTTState [1] false true (Or.inl rfl)

/-! ## Stream session registry (python_sdk/backend_server.py)

`active_streams`, `live_to_sessions` and the helpers
`register_stream_session`, `cancel_stream_by_session`,
`cleanup_stream_session`.  Python dicts keyed by strings are modelled as
association lists with first-occurrence update, Python sets of session ids
as duplicate-free lists. -/

def lookupA {β : Type} : List (String × β) → String → Option β
  | [], _ => none
  | (k, v) :: rest, key => if k = key then some v else lookupA rest key

/-- Dict assignment `d[key] = v`: replace in place, or append. -/
def setA {β : Type} : List (String × β) → String → β → List (String × β)
  | [], key, v => [(key, v)]
  | (k, w) :: rest, key, v =>
      if k = key then (k, v) :: rest else (k, w) :: setA rest key v

/-- Dict deletion `d.pop(key, None)` / `del d[key]`. -/
def removeA {β : Type} : List (String × β) → String → List (String × β)
  | [], _ => []
  | (k, w) :: rest, key =>
      if k = key then removeA rest key else (k, w) :: removeA rest key

/-- Python `set.add`. -/
def addS (l : List String) (x : String) : List String :=
  if x ∈ l then l else l ++ [x]

/-- Python `set.discard`. -/
def discardS (l : List String) (x : String) : List String :=
  l.filter (fun y => y ≠ x)

/-- One entry of `active_streams`: the bound live id and the state of the
    `asyncio.Event` cancel flag. -/
structure StreamEntry where
  live_id : Option String
  cancel_set : Bool
deriving DecidableEq

/-- The module-level registries `active_streams` and `live_to_sessions`. -/
structure Registry where
  active_streams : List (String × StreamEntry)
  live_to_sessions : List (String × List String)
deriving DecidableEq

def emptyRegistry : Registry := { active_streams := [], live_to_sessions := [] }

/-- `register_stream_session`: record the session with a fresh (unset) cancel
    event and index it under its live id when one is given. -/
def register_stream_session (r : Registry) (session_id : String)
    (live_id : Option String) : Registry :=
  let r1 : Registry :=
    { r with
      active_streams :=
        setA r.active_streams session_id { live_id := live_id, cancel_set := false } }
  match live_id with
  | none => r1
  | some live =>
      let cur := (lookupA r1.live_to_sessions live).getD []
      { r1 with live_to_sessions := setA r1.live_to_sessions live (addS cur session_id) }

/-- `cancel_stream_by_session`: 0 when the session is not registered;
    otherwise set the event if it is not already set and return 1.  Cleanup
    of `active_streams` is deferred to the end of the stream. -/
def cancel_stream_by_session (r : Registry) (session_id : String) : Nat × Registry :=
  match lookupA r.active_streams session_id with
  | none => (0, r)
  | some entry =>
      if entry.cancel_set then (1, r)
      else
        (1, { r with
              active_streams :=
                setA r.active_streams session_id { entry with cancel_set := true } })

/-- `cancel_streams_by_live_id`: cancel every session indexed under the live
    id, summing the per-session counts. -/
def cancel_streams_by_live_id (r : Registry) (live_id : String) : Nat × Registry :=
  let session_ids := (lookupA r.live_to_sessions live_id).getD []
  session_ids.foldl
    (fun acc sid =>
      let r2 := cancel_stream_by_session acc.2 sid
      (acc.1 + r2.1, r2.2))
    (0, r)

/-- `cleanup_stream_session`: pop the session from `active_streams`, discard
    it from the live index, and drop the live key when its set empties. -/
def cleanup_stream_session (r : Registry) (session_id : String) : Registry :=
  match lookupA r.active_streams session_id with
  | none => r
  | some entry =>
      let r1 : Registry := { r with active_streams := removeA r.active_streams session_id }
      match entry.live_id with
      | none => r1
      | some live =>
          match lookupA r1.live_to_sessions live with
          | none => r1
          | some ss =>
              if session_id ∈ ss then
                let ss2 := discardS ss session_id
                if ss2 = [] then
                  { r1 with live_to_sessions := removeA r1.live_to_sessions live }
                else
                  { r1 with live_to_sessions := setA r1.live_to_sessions live ss2 }
              else r1

theorem lookupA_setA_self {β : Type} (l : List (String × β)) (k : String) (v : β) :
    lookupA (setA l k v) k = some v := by
  induction l with
  | nil => simp [setA, lookupA]
  | cons p rest ih =>
      by_cases h : p.1 = k
      · simp [setA, lookupA, h]
      · simp [setA, lookupA, h, ih]

theorem lookupA_removeA_self {β : Type} (l : List (String × β)) (k : String) :
    lookupA (removeA l k) k = none := by
  induction l with
  | nil => simp [removeA, lookupA]
  | cons p rest ih =>
      by_cases h : p.1 = k
      · simp [removeA, h, ih]
      · simp [removeA, lookupA, h, ih]

theorem not_mem_discardS (ss : List String) (sid : String) : sid ∉ discardS ss sid := by
  simp [discardS]

theorem cleanup_removes (r : Registry) (sid : String) (entry : StreamEntry)
    (h : lookupA r.active_streams sid = some entry) :
    lookupA (cleanup_stream_session r sid).active_streams sid = none
    ∧ ∀ live ss, entry.live_id = some live →
        lookupA (cleanup_stream_session r sid).live_to_sessions live = some ss →
        sid ∉ ss := by
  unfold cleanup_stream_session
  rw [h]
  try dsimp only
  cases hl : entry.live_id with
  | none =>
      try dsimp only
      exact ⟨lookupA_removeA_self _ _, fun live ss hlive _ => Option.noConfusion hlive⟩
  | some live0 =>
      try dsimp only
      cases hll : lookupA r.live_to_sessions live0 with
      | none =>
          try dsimp only
          refine ⟨lookupA_removeA_self _ _, ?_⟩
          intro live ss hlive hss
          cases hlive
          try dsimp only at hss
          rw [hll] at hss
          cases hss
      | some ss0 =>
          try dsimp only
          by_cases hmem : sid ∈ ss0
          · rw [if_pos hmem]
            by_cases hnil : discardS ss0 sid = []
            · rw [if_pos hnil]
              refine ⟨lookupA_removeA_self _ _, ?_⟩
              intro live ss hlive hss
              cases hlive
              try dsimp only at hss
              rw [lookupA_removeA_self] at hss
              cases hss
            · rw [if_neg hnil]
              refine ⟨lookupA_removeA_self _ _, ?_⟩
              intro live ss hlive hss
              cases hlive
              try dsimp only at hss
              rw [lookupA_setA_self] at hss
              cases hss
              exact not_mem_discardS ss0 sid
          · rw [if_neg hmem]
            refine ⟨lookupA_removeA_self _ _, ?_⟩
            intro live ss hlive hss
            cases hlive
            try dsimp only at hss
            rw [hll] at hss
            cases hss
            exact hmem

/-- C4 counterexample.  With one session registered and not yet released,
    `cancel_stream_by_session` returns 1 on the first call and 1 again on the
    second, not 0: the function counts the still-registered session, not the
    newly-tripped signals, and cleanup is deferred to the end of the stream. -/
theorem C4_cancel_twice_counterexample :
    (cancel_stream_by_session
        (register_stream_session emptyRegistry "s1" (some "room1")) "s1").1 = 1
    ∧ (cancel_stream_by_session
        (cancel_stream_by_session
          (register_stream_session emptyRegistry "s1" (some "room1")) "s1").2 "s1").1
      ≠ 0 := by
  decide

/-- C4 (amended).  For a registered, unreleased session both cancel calls
    return 1 (the second is not 0); setting the already-set signal is a
    no-op, so the second call leaves the registry unchanged; and release
    after cancellation removes the session id from the primary table and
    from the room-index set of the room recorded for that session. -/
theorem C4_cancel_idempotence (r : Registry) (sid : String) (entry : StreamEntry)
    (h : lookupA r.active_streams sid = some entry) :
    (cancel_stream_by_session r sid).1 = 1
    ∧ (cancel_stream_by_session (cancel_stream_by_session r sid).2 sid).1 = 1
    ∧ (cancel_stream_by_session (cancel_stream_by_session r sid).2 sid).2
        = (cancel_stream_by_session r sid).2
    ∧ lookupA (cleanup_stream_session
          (cancel_stream_by_session r sid).2 sid).active_streams sid = none
    ∧ ∀ live ss, entry.live_id = some live →
        lookupA (cleanup_stream_session
            (cancel_stream_by_session r sid).2 sid).live_to_sessions live = some ss →
        sid ∉ ss := by
  by_cases hc : entry.cancel_set
  · have h1 : cancel_stream_by_session r sid = (1, r) := by
      simp [cancel_stream_by_session, h, hc]
    rw [h1]
    have hclean := cleanup_removes r sid entry h
    exact ⟨rfl, (by rw [h1]), (by rw [h1]), hclean.1, hclean.2⟩
  · have h1 : cancel_stream_by_session r sid
        = (1, { r with
                active_streams :=
                  setA r.active_streams sid { entry with cancel_set := true } }) := by
      simp [cancel_stream_by_session, h, hc]
    have h2 : lookupA (setA r.active_streams sid { entry with cancel_set := true }) sid
        = some { entry with cancel_set := true } := lookupA_setA_self _ _ _
    have h3 : cancel_stream_by_session
        ({ r with
           active_streams :=
             setA r.active_streams sid { entry with cancel_set := true } } : Registry) sid
        = (1, { r with
                active_streams :=
                  setA r.active_streams sid { entry with cancel_set := true } }) := by
      simp [cancel_stream_by_session, h2]
    have hclean := cleanup_removes
      ({ r with
         active_streams :=
           setA r.active_streams sid { entry with cancel_set := true } } : Registry)
      sid { entry with cancel_set := true } h2
    rw [h1]
    exact ⟨rfl, (by rw [h3]), (by rw [h3]), hclean.1, hclean.2⟩

/-- C4 witness: the amended statement at a concretely registered session. -/
theorem C4_cancel_idempotence_witness :
    (cancel_stream_by_session
        (register_stream_session emptyRegistry "s1" (some "room1")) "s1").1 = 1
    ∧ (cancel_stream_by_session
        (cancel_stream_by_session
          (register_stream_session emptyRegistry "s1" (some "room1")) "s1").2 "s1").1 = 1
    ∧ (cancel_stream_by_session
        (cancel_stream_by_session
          (register_stream_session emptyRegistry "s1" (some "room1")) "s1").2 "s1").2
        = (cancel_stream_by_session
            (register_stream_session emptyRegistry "s1" (some "room1")) "s1").2
    ∧ lookupA (cleanup_stream_session
          (cancel_stream_by_session
            (register_stream_session emptyRegistry "s1" (some "room1")) "s1").2
          "s1").active_streams "s1" = none
    ∧ ∀ live ss,
        ({ live_id := some "room1", cancel_set := false } : StreamEntry).live_id
          = some live →
        lookupA (cleanup_stream_session
            (cancel_stream_by_session
              (register_stream_session emptyRegistry "s1" (some "room1")) "s1").2
            "s1").live_to_sessions live = some ss →
        "s1" ∉ ss :=
  C4_cancel_idempotence (register_stream_session emptyRegistry "s1" (some "room1"))
    "s1" { live_id := some "room1", cancel_set := false } (by decide)

/-! ## Avatar-control client lifecycle (python_sdk/digital_human_client.py)

`stop_live` and `disconnect`.  The state is the pair of nullable bindings
the client keeps: `websocket` (with a flag telling whether the socket is
already in the CLOSED state) and `live_id`.  Exceptions raised by the
underlying `send` and `close` calls are oracles; every branch that catches
them in the source is a branch on the oracle here.  The action trace records
the externally visible steps in order. -/

/-- Outcome oracle for one awaited websocket call. -/
inductive WsOutcome where
  | ok
  | connClosed
  | timedOut
  | failed
deriving DecidableEq

inductive DHAction where
  | sentStopFrame
  | sleptHalfSecond
  | closedSocket
deriving DecidableEq

/-- The avatar client bindings: `websocket = some b` is a socket whose state
    is CLOSED exactly when `b`, `none` is no socket. -/
structure DHState where
  websocket : Option Bool
  live_id : Option String
deriving DecidableEq

/-- `DigitalHumanClient.stop_live`: without a socket, clear `live_id` and
    return; without a live id, do nothing; otherwise send the stop-live
    control frame, clearing `live_id` on success and on every caught
    exception. -/
def stop_live (st : DHState) (send_out : WsOutcome) : DHState × List DHAction :=
  match st.websocket with
  | none => ({ st with live_id := none }, [])
  | some _ =>
      match st.live_id with
      | none => (st, [])
      | some _ =>
          match send_out with
          | .ok => ({ st with live_id := none }, [.sentStopFrame])
          | _ => ({ st with live_id := none }, [])

/-- `DigitalHumanClient.disconnect`: nothing happens without a socket; with
    one, stop the live session first when a live id is bound, wait half a
    second, close the socket unless it is already CLOSED (tolerating
    timeout, already-closed and other errors), and in the `finally` block
    clear both bindings. -/
def disconnect (st : DHState) (send_out close_out : WsOutcome) :
    DHState × List DHAction :=
  match st.websocket with
  | none => (st, [])
  | some wsClosed =>
      let stopped :=
        match st.live_id with
        | some _ =>
            let s := stop_live st send_out
            (s.1, s.2 ++ [DHAction.sleptHalfSecond])
        | none => (st, [])
      let closeActs : List DHAction :=
        match stopped.1.websocket with
        | some c => if c then [] else [DHAction.closedSocket]
        | none => []
      let _ := close_out
      (({ websocket := none, live_id := none } : DHState),
       stopped.2 ++ closeActs)

/-- C8 counterexample.  When the socket is already gone but a live id is
    still bound, `disconnect` returns immediately without clearing
    `live_id`, contradicting the claimed postcondition that every exit path
    leaves `live_id = None`. -/
theorem C8_disconnect_counterexample :
    (disconnect ({ websocket := none, live_id := some "live1" } : DHState)
        .ok .ok).1.live_id ≠ none := by
  decide

/-- C8 (amended).  Whenever a socket is present on entry, `disconnect` ends
    with `websocket = None` and `live_id = None` on every outcome of the
    stop-send and the close, including timeouts, already-closed sockets and
    errors; when a live id is bound and the stop-send succeeds, the stop-live
    control frame is sent and the brief wait happens before the socket close
    is attempted, and the close is skipped exactly when the socket is
    already CLOSED.  When no socket is present, `disconnect` returns with
    the state untouched, so a dangling `live_id` is not cleared on that
    path. -/
theorem C8_disconnect_postcondition (st : DHState) (wsClosed : Bool)
    (send_out close_out : WsOutcome) (h : st.websocket = some wsClosed) :
    (disconnect st send_out close_out).1
        = ({ websocket := none, live_id := none } : DHState)
    ∧ ((∃ l, st.live_id = some l) → send_out = .ok →
        (disconnect st send_out close_out).2
          = [DHAction.sentStopFrame, DHAction.sleptHalfSecond]
            ++ (if wsClosed then [] else [DHAction.closedSocket])) := by
  obtain ⟨ws, lid⟩ := st
  cases h
  cases lid with
  | none =>
      refine ⟨rfl, ?_⟩
      rintro ⟨l, hl⟩
      cases hl
  | some l =>
      cases send_out with
      | ok => exact ⟨rfl, fun _ _ => rfl⟩
      | connClosed => exact ⟨rfl, fun _ hok => absurd hok (by decide)⟩
      | timedOut => exact ⟨rfl, fun _ hok => absurd hok (by decide)⟩
      | failed => exact ⟨rfl, fun _ hok => absurd hok (by decide)⟩

/-- C8 witness: the amended postcondition on a bound, open socket with a
    successful stop-send and close. -/
theorem C8_disconnect_postcondition_witness :
    (disconnect ({ websocket := some false, live_id := some "live1" } : DHState)
        .ok .ok).1
        = ({ websocket := none, live_id := none } : DHState)
    ∧ ((∃ l, ({ websocket := some false, live_id := some "live1" } : DHState).live_id
          = some l) → WsOutcome.ok = .ok →
        (disconnect ({ websocket := some false, live_id := some "live1" } : DHState)
            .ok .ok).2
          = [DHAction.sentStopFrame, DHAction.sleptHalfSecond]
            ++ (if false then [] else [DHAction.closedSocket])) :=
  C8_disconnect_postcondition
    ({ websocket := some false, live_id := some "live1" } : DHState) false .ok .ok rfl

/-! ## Join-room coordinator (python_sdk/backend_server.py, join_room)

The handler state: the existing-session table `active_sessions` (live id
to session status), the pending-request table, the failure-cooldown table,
and the avatar client's connection state the session check consults
(`digital_human_client.is_connected()` and `.live_id`).  The handler
presumes the global client initialized (the uninitialized-client 500 guard
at line 409 is outside the model).  `join_room` is the full handler body
(lines 406-707): the existing-session check of lines 414-451 followed by
`joinRoomChecks`, the request tracking from the pending check onward
(lines 453-707) with its `try/except HTTPException` wrapper that records a
failure timestamp on every raising path.  Time is the event-loop clock
passed in as `now`.  `task_succeeds` is the oracle for the created join
task (connect retries plus `start_live_rtc`); the task body always removes
its pending entry in its `finally`.  One `realAttempt` action is recorded
when a join task is actually created, which is the one real connection
attempt of the claim; rejection paths and the already-active early return
record no action and open no socket. -/

def COOLDOWN_PERIOD : Rat := 10

structure CoordState where
  pending : List (String × Bool)
  failed_requests : List (String × Rat)
  active_sessions : List (String × String) := []
  dh_connected : Bool := false
  dh_live_id : Option String := none
deriving DecidableEq

inductive JoinOutcome where
  | rejectedPending
  | rejectedCooldown (remaining : Rat)
  | alreadyActive
  | success
  | failedAttempt
deriving DecidableEq

inductive JoinAction where
  | realAttempt
deriving DecidableEq

/-- Lines 453-460 and 481-490: a pending entry whose task is not done. -/
def pendingBusy (st : CoordState) (live_id : String) : Bool :=
  match lookupA st.pending live_id with
  | some done => !done
  | none => false

/-- The body under `connection_lock`: the re-checked pending guard, the task
    creation (recorded as the real attempt), the awaited task whose
    `finally` deletes the pending entry, and the outer handler recording the
    failure timestamp when the task raises. -/
def joinRoomLocked (st : CoordState) (live_id : String) (now : Rat)
    (task_succeeds : Bool) : JoinOutcome × CoordState × List JoinAction :=
  if pendingBusy st live_id then
    (.rejectedPending,
     { st with failed_requests := setA st.failed_requests live_id now }, [])
  else
    let st1 : CoordState := { st with pending := setA st.pending live_id false }
    let st2 : CoordState := { st1 with pending := removeA st1.pending live_id }
    if task_succeeds then
      (.success,
       { st2 with active_sessions := setA st2.active_sessions live_id "active" },
       [.realAttempt])
    else
      (.failedAttempt,
       { st2 with failed_requests := setA st2.failed_requests live_id now },
       [.realAttempt])

/-- The `join_room` request tracking from the pending check onward (lines
    453-707): the pre-lock pending rejection, the cooldown rejection
    carrying the remaining seconds, the removal of an expired cooldown
    record, then the locked section.  Every raised HTTPException is caught
    by the outer handler, which stores `now` as the fresh failure timestamp
    for this live id before re-raising. -/
def joinRoomChecks (st : CoordState) (live_id : String) (now : Rat)
    (task_succeeds : Bool) : JoinOutcome × CoordState × List JoinAction :=
  if pendingBusy st live_id then
    (.rejectedPending,
     { st with failed_requests := setA st.failed_requests live_id now }, [])
  else
    match lookupA st.failed_requests live_id with
    | some t =>
        if now - t < COOLDOWN_PERIOD then
          (.rejectedCooldown (COOLDOWN_PERIOD - (now - t)),
           { st with failed_requests := setA st.failed_requests live_id now }, [])
        else
          joinRoomLocked
            { st with failed_requests := removeA st.failed_requests live_id }
            live_id now task_succeeds
    | none => joinRoomLocked st live_id now task_succeeds

/-- Cooldown behaviour of the request-tracking phase: inside the window the
    rejection carries the remaining seconds with an empty action trace;
    past the window the record is removed and a real attempt is made. -/
theorem joinRoomChecks_cooldown (st : CoordState) (live : String) (now t : Rat)
    (task_succeeds : Bool)
    (hp : pendingBusy st live = false)
    (hf : lookupA st.failed_requests live = some t) :
    (now - t < COOLDOWN_PERIOD →
      (joinRoomChecks st live now task_succeeds).1
        = .rejectedCooldown (COOLDOWN_PERIOD - (now - t))
      ∧ (joinRoomChecks st live now task_succeeds).2.2 = [])
    ∧ (COOLDOWN_PERIOD ≤ now - t →
      (joinRoomChecks st live now task_succeeds).2.2 = [.realAttempt]
      ∧ (task_succeeds = true →
        lookupA (joinRoomChecks st live now task_succeeds).2.1.failed_requests live
          = none)) := by
  unfold joinRoomChecks
  rw [hp]
  simp only [Bool.false_eq_true, if_false, hf]
  constructor
  · intro hlt
    rw [if_pos hlt]
    exact ⟨rfl, rfl⟩
  · intro hge
    rw [if_neg (not_lt.mpr hge)]
    unfold joinRoomLocked
    have hp2 : pendingBusy
        ({ st with failed_requests := removeA st.failed_requests live } : CoordState)
        live = false := hp
    rw [hp2]
    simp only [Bool.false_eq_true, if_false]
    cases task_succeeds with
    | true =>
        refine ⟨rfl, fun _ => ?_⟩
        exact lookupA_removeA_self _ _
    | false => exact ⟨rfl, fun hcontra => by cases hcontra⟩

/-- The full `join_room` handler (lines 406-707): the existing-session
    check of lines 414-451 runs first.  A session recorded as active while
    the avatar client is connected and bound to this live id answers with
    the already-active success immediately, before the pending and cooldown
    checks; a stale active session is deleted, clearing the client binding
    when it matches, and a non-active session is deleted; in those cases
    the handler falls through to the request tracking of
    `joinRoomChecks`. -/
def join_room (st : CoordState) (live_id : String) (now : Rat)
    (task_succeeds : Bool) : JoinOutcome × CoordState × List JoinAction :=
  match lookupA st.active_sessions live_id with
  | some status =>
      if status = "active" then
        if st.dh_connected = true ∧ st.dh_live_id = some live_id then
          (.alreadyActive, st, [])
        else
          let st1 : CoordState :=
            { st with active_sessions := removeA st.active_sessions live_id }
          let st2 : CoordState :=
            if st1.dh_live_id = some live_id then { st1 with dh_live_id := none }
            else st1
          joinRoomChecks st2 live_id now task_succeeds
      else
        joinRoomChecks
          { st with active_sessions := removeA st.active_sessions live_id }
          live_id now task_succeeds
  | none => joinRoomChecks st live_id now task_succeeds

/-- C5 counterexample.  A live id can sit inside an active cooldown window
    (failure recorded at time 0, request at time 5) while a valid active
    session exists for it — reachable when a pending-429 recorded the
    failure and the in-flight join then completed, binding the room.  The
    request is answered with the already-active success and never reaches
    the cooldown check: no 429 is raised, contradicting the claim that a
    within-cooldown request is rejected. -/
theorem C5_cooldown_enforcement_counterexample :
    ((5 : Rat) - 0 < COOLDOWN_PERIOD)
    ∧ (join_room ({ pending := [], failed_requests := [("L", 0)],
                    active_sessions := [("L", "active")], dh_connected := true,
                    dh_live_id := some "L" } : CoordState) "L" 5 true).1
        = JoinOutcome.alreadyActive
    ∧ (join_room ({ pending := [], failed_requests := [("L", 0)],
                    active_sessions := [("L", "active")], dh_connected := true,
                    dh_live_id := some "L" } : CoordState) "L" 5 true).1
        ≠ JoinOutcome.rejectedCooldown (COOLDOWN_PERIOD - ((5 : Rat) - 0)) := by
  refine ⟨by norm_num [COOLDOWN_PERIOD], by decide, by decide⟩

/-- C5 (amended).  When a valid active session exists for the live id (the
    session table holds it as active and the avatar client is connected and
    bound to it), a join request — within the cooldown window or not — is
    answered with the already-active success and no action.  In every other
    state the cooldown is enforced as claimed: inside the window the
    request is rejected with the remaining seconds before any task is
    created or socket opened (empty action trace); once the window has
    elapsed the failure record is removed (gone from the final state when
    the attempt succeeds) and a real attempt is made. -/
theorem C5_cooldown_enforcement (st : CoordState) (live : String) (now t : Rat)
    (task_succeeds : Bool)
    (hp : pendingBusy st live = false)
    (hf : lookupA st.failed_requests live = some t) :
    ((lookupA st.active_sessions live = some "active" ∧ st.dh_connected = true
        ∧ st.dh_live_id = some live) →
      (join_room st live now task_succeeds).1 = JoinOutcome.alreadyActive
      ∧ (join_room st live now task_succeeds).2.2 = [])
    ∧ (¬(lookupA st.active_sessions live = some "active" ∧ st.dh_connected = true
        ∧ st.dh_live_id = some live) →
      (now - t < COOLDOWN_PERIOD →
        (join_room st live now task_succeeds).1
          = JoinOutcome.rejectedCooldown (COOLDOWN_PERIOD - (now - t))
        ∧ (join_room st live now task_succeeds).2.2 = [])
      ∧ (COOLDOWN_PERIOD ≤ now - t →
        (join_room st live now task_succeeds).2.2 = [JoinAction.realAttempt]
        ∧ (task_succeeds = true →
          lookupA (join_room st live now task_succeeds).2.1.failed_requests live
            = none))) := by
  constructor
  · rintro ⟨h1, h2, h3⟩
    unfold join_room
    rw [h1]
    dsimp only
    rw [if_pos rfl, if_pos ⟨h2, h3⟩]
    exact ⟨rfl, rfl⟩
  · intro hna
    unfold join_room
    cases ha : lookupA st.active_sessions live with
    | none =>
        exact joinRoomChecks_cooldown st live now t task_succeeds hp hf
    | some status =>
        try dsimp only
        by_cases hact : status = "active"
        · subst hact
          rw [if_pos rfl]
          by_cases hdc : st.dh_connected = true ∧ st.dh_live_id = some live
          · exact absurd ⟨ha, hdc.1, hdc.2⟩ hna
          · rw [if_neg hdc]
            try dsimp only
            by_cases hdl : st.dh_live_id = some live
            · rw [if_pos hdl]
              exact joinRoomChecks_cooldown _ live now t task_succeeds hp hf
            · rw [if_neg hdl]
              exact joinRoomChecks_cooldown _ live now t task_succeeds hp hf
        · rw [if_neg hact]
          exact joinRoomChecks_cooldown _ live now t task_succeeds hp hf

/-- C5 witness: no session recorded for the room; cooldown of a failure at
    time 0 checked at time 5, then the elapsed-window case. -/
theorem C5_cooldown_enforcement_witness :
    ((lookupA ({ pending := [], failed_requests := [("L", 0)],
                 active_sessions := [], dh_connected := false,
                 dh_live_id := none } : CoordState).active_sessions "L"
          = some "active"
        ∧ ({ pending := [], failed_requests := [("L", 0)], active_sessions := [],
             dh_connected := false,
             dh_live_id := none } : CoordState).dh_connected = true
        ∧ ({ pending := [], failed_requests := [("L", 0)], active_sessions := [],
             dh_connected := false,
             dh_live_id := none } : CoordState).dh_live_id = some "L") →
      (join_room ({ pending := [], failed_requests := [("L", 0)],
                    active_sessions := [], dh_connected := false,
                    dh_live_id := none } : CoordState) "L" 5 true).1
          = JoinOutcome.alreadyActive
      ∧ (join_room ({ pending := [], failed_requests := [("L", 0)],
                      active_sessions := [], dh_connected := false,
                      dh_live_id := none } : CoordState) "L" 5 true).2.2 = [])
    ∧ (¬(lookupA ({ pending := [], failed_requests := [("L", 0)],
                    active_sessions := [], dh_connected := false,
                    dh_live_id := none } : CoordState).active_sessions "L"
          = some "active"
        ∧ ({ pending := [], failed_requests := [("L", 0)], active_sessions := [],
             dh_connected := false,
             dh_live_id := none } : CoordState).dh_connected = true
        ∧ ({ pending := [], failed_requests := [("L", 0)], active_sessions := [],
             dh_connected := false,
             dh_live_id := none } : CoordState).dh_live_id = some "L") →
      ((5 : Rat) - 0 < COOLDOWN_PERIOD →
        (join_room ({ pending := [], failed_requests := [("L", 0)],
                      active_sessions := [], dh_connected := false,
                      dh_live_id := none } : CoordState) "L" 5 true).1
          = JoinOutcome.rejectedCooldown (COOLDOWN_PERIOD - ((5 : Rat) - 0))
        ∧ (join_room ({ pending := [], failed_requests := [("L", 0)],
                        active_sessions := [], dh_connected := false,
                        dh_live_id := none } : CoordState) "L" 5 true).2.2 = [])
      ∧ (COOLDOWN_PERIOD ≤ (5 : Rat) - 0 →
        (join_room ({ pending := [], failed_requests := [("L", 0)],
                      active_sessions := [], dh_connected := false,
                      dh_live_id := none } : CoordState) "L" 5 true).2.2
          = [JoinAction.realAttempt]
        ∧ (true = true →
          lookupA (join_room ({ pending := [], failed_requests := [("L", 0)],
                                active_sessions := [], dh_connected := false,
                                dh_live_id := none } : CoordState)
              "L" 5 true).2.1.failed_requests "L" = none))) :=
  C5_cooldown_enforcement
    ({ pending := [], failed_requests := [("L", 0)], active_sessions := [],
       dh_connected := false, dh_live_id := none } : CoordState)
    "L" 5 0 true (by decide) (by decide)

/-- C7.  While a pending join task for a live id exists and is not done, a
    second request for the same live id is rejected with the 429 concurrency
    error before creating any task (empty action trace, pending table
    unchanged, so the first task remains the only one); a request finding no
    pending task and no cooldown makes exactly one real attempt. -/
theorem C7_at_most_one_pending_join (st : CoordState) (live : String) (now : Rat)
    (task_succeeds : Bool) :
    (lookupA st.pending live = some false →
      (joinRoomChecks st live now task_succeeds).1 = .rejectedPending
      ∧ (joinRoomChecks st live now task_succeeds).2.2 = []
      ∧ (joinRoomChecks st live now task_succeeds).2.1.pending = st.pending)
    ∧ (pendingBusy st live = false → lookupA st.failed_requests live = none →
      (joinRoomChecks st live now task_succeeds).2.2 = [.realAttempt]) := by
  constructor
  · intro hpend
    have hp : pendingBusy st live = true := by
      unfold pendingBusy
      rw [hpend]
      rfl
    unfold joinRoomChecks
    rw [hp]
    exact ⟨rfl, rfl, rfl⟩
  · intro hp hf
    unfold joinRoomChecks
    rw [hp]
    simp only [Bool.false_eq_true, if_false, hf]
    unfold joinRoomLocked
    rw [hp]
    simp only [Bool.false_eq_true, if_false]
    cases task_succeeds <;> rfl

/-- C7 witness: the guard at a state holding one pending, not-done task. -/
theorem C7_at_most_one_pending_join_witness :
    (lookupA ({ pending := [("L", false)], failed_requests := [] } : CoordState).pending
        "L" = some false →
      (joinRoomChecks ({ pending := [("L", false)], failed_requests := [] } : CoordState)
          "L" 3 true).1 = .rejectedPending
      ∧ (joinRoomChecks ({ pending := [("L", false)], failed_requests := [] } : CoordState)
          "L" 3 true).2.2 = []
      ∧ (joinRoomChecks ({ pending := [("L", false)], failed_requests := [] } : CoordState)
          "L" 3 true).2.1.pending
        = ({ pending := [("L", false)], failed_requests := [] } : CoordState).pending)
    ∧ (pendingBusy ({ pending := [("L", false)], failed_requests := [] } : CoordState)
        "L" = false →
      lookupA ({ pending := [("L", false)], failed_requests := [] } : CoordState).failed_requests
        "L" = none →
      (joinRoomChecks ({ pending := [("L", false)], failed_requests := [] } : CoordState)
          "L" 3 true).2.2 = [.realAttempt]) :=
  C7_at_most_one_pending_join
    ({ pending := [("L", false)], failed_requests := [] } : CoordState) "L" 3 true

/-- C9.  Every non-success outcome of `joinRoomChecks` (both 429 rejections and a
    failed attempt) stores `now` as the fresh failure timestamp for the live
    id; in particular a request rejected during an active cooldown is itself
    recorded at `now`, restarting the full window. -/
theorem C9_failures_record_fresh_cooldown (st : CoordState) (live : String)
    (now : Rat) (task_succeeds : Bool) :
    ((joinRoomChecks st live now task_succeeds).1 ≠ .success →
      lookupA (joinRoomChecks st live now task_succeeds).2.1.failed_requests live
        = some now)
    ∧ (∀ t, pendingBusy st live = false →
        lookupA st.failed_requests live = some t → now - t < COOLDOWN_PERIOD →
        (joinRoomChecks st live now task_succeeds).1
          = .rejectedCooldown (COOLDOWN_PERIOD - (now - t))
        ∧ lookupA (joinRoomChecks st live now task_succeeds).2.1.failed_requests live
          = some now) := by
  constructor
  · intro hne
    unfold joinRoomChecks at hne ⊢
    by_cases hp : pendingBusy st live
    · rw [hp] at hne ⊢
      simpa using lookupA_setA_self st.failed_requests live now
    · rw [Bool.not_eq_true] at hp
      rw [hp] at hne ⊢
      simp only [Bool.false_eq_true, if_false] at hne ⊢
      cases hf : lookupA st.failed_requests live with
      | some t =>
          rw [hf] at hne
          dsimp only at hne
          try dsimp only
          by_cases hlt : now - t < COOLDOWN_PERIOD
          · rw [if_pos hlt] at hne ⊢
            simpa using lookupA_setA_self st.failed_requests live now
          · rw [if_neg hlt] at hne ⊢
            unfold joinRoomLocked at hne ⊢
            have hp2 : pendingBusy
                ({ st with
                   failed_requests := removeA st.failed_requests live } : CoordState)
                live = false := hp
            rw [hp2] at hne ⊢
            simp only [Bool.false_eq_true, if_false] at hne ⊢
            cases task_succeeds with
            | true => exact absurd rfl hne
            | false => simpa using lookupA_setA_self _ live now
      | none =>
          rw [hf] at hne
          dsimp only at hne
          try dsimp only
          unfold joinRoomLocked at hne ⊢
          rw [hp] at hne ⊢
          simp only [Bool.false_eq_true, if_false] at hne ⊢
          cases task_succeeds with
          | true => exact absurd rfl hne
          | false => simpa using lookupA_setA_self _ live now
  · intro t hp hf hlt
    unfold joinRoomChecks
    rw [hp]
    simp only [Bool.false_eq_true, if_false, hf]
    rw [if_pos hlt]
    exact ⟨rfl, by simpa using lookupA_setA_self st.failed_requests live now⟩

/-- C9 witness: a retry at 5 seconds into the cooldown of a failure recorded
    at time 0 is rejected and re-stamped at 5 seconds. -/
theorem C9_failures_record_fresh_cooldown_witness :
    ((joinRoomChecks ({ pending := [], failed_requests := [("L", 0)] } : CoordState)
        "L" 5 true).1 ≠ .success →
      lookupA (joinRoomChecks
          ({ pending := [], failed_requests := [("L", 0)] } : CoordState)
          "L" 5 true).2.1.failed_requests "L" = some 5)
    ∧ (∀ t, pendingBusy ({ pending := [], failed_requests := [("L", 0)] } : CoordState)
          "L" = false →
        lookupA ({ pending := [], failed_requests := [("L", 0)] } : CoordState).failed_requests
          "L" = some t → (5 : Rat) - t < COOLDOWN_PERIOD →
        (joinRoomChecks ({ pending := [], failed_requests := [("L", 0)] } : CoordState)
            "L" 5 true).1
          = .rejectedCooldown (COOLDOWN_PERIOD - ((5 : Rat) - t))
        ∧ lookupA (joinRoomChecks
              ({ pending := [], failed_requests := [("L", 0)] } : CoordState)
              "L" 5 true).2.1.failed_requests "L" = some 5) :=
  C9_failures_record_fresh_cooldown
    ({ pending := [], failed_requests := [("L", 0)] } : CoordState) "L" 5 true

/-! ## Streaming pipeline (python_sdk/backend_server.py, stream_pipeline)

The async generator of `/api/query/stream` with its cancellation polls, the
`safe_tts_synthesize` retry loop, the audio-delivery loop driving the
avatar, and the `finally` that releases the stream-registry entry.

Cooperative cancellation is modelled with a poll clock: `is_set()` calls are
numbered in execution order and the signal is observed set from poll index
`cancelAt` on (the external `cancel_event.set()` lands between polls
`cancelAt - 1` and `cancelAt`; the flag is monotone).  The LLM stream is the
list of its answer chunks; `ttsA` maps a sentence to the audio chunks the
TTS service yields for it; `dh` tells whether the avatar websocket and
live id are available, in which case each delivered chunk makes one
`drive_with_streaming_audio` call; TTS reconnection bookkeeping performs no
polls and emits no events and is elided. -/

inductive PipeEv where
  | startEv
  | cancelledEv
  | textChunkEv
  | sentenceCompleteEv
  | audioChunkEv
  | sentenceProcessedEv
  | finalSentenceEv
  | finalAudioChunkEv
  | ttsErrorEv
  | finalTtsErrorEv
  | completeEv
deriving DecidableEq

/-- Sentence-terminal marks checked by the pipeline. -/
def sentencePunct : List Char := ['。', '！', '？', '.', '!', '?']

/-- ASCII whitespace stripped by Python `str.strip()`. -/
def pyWhitespace : List Char := [' ', '\t', '\n', '\r', '\x0B', '\x0C']

/-- Python `str.strip()` on the character list of the string. -/
def pyStrip (s : String) : String :=
  ⟨((s.data.dropWhile (fun c => pyWhitespace.contains c)).reverse.dropWhile
      (fun c => pyWhitespace.contains c)).reverse⟩

/-- `any(punct in sentence_buffer for punct in [...])`. -/
def containsPunct (s : String) : Bool :=
  s.toList.any (fun c => sentencePunct.contains c)

/-- The `async for audio_chunk in tts_client.synthesize_text(...)` collection
    loop inside `safe_tts_synthesize`: one cancellation poll per received
    chunk; a tripped poll raises CancelledError, discarding the partial
    list.  Returns the poll counter on completion or cancellation. -/
def ttsCollect (cancelAt : Nat) : Nat → List (List Nat) → Except Nat Nat
  | p, [] => .ok p
  | p, _ :: rest =>
      if cancelAt ≤ p then .error (p + 1)
      else ttsCollect cancelAt (p + 1) rest

inductive SafeTTSRes where
  | cancelled
  | failed
  | ok
deriving DecidableEq

/-- The retry loop of `safe_tts_synthesize`: up to `fuel` iterations, each
    polling before work (CancelledError when set), collecting the chunks
    with per-chunk polls, and treating an empty chunk list as a failure that
    consumes a retry; exhausted retries raise, which the pipeline turns into
    a tts-error event. -/
def safeTTSLoop (cancelAt : Nat) (cs : List (List Nat)) : Nat → Nat → SafeTTSRes × Nat
  | 0, p => (.failed, p)
  | fuel + 1, p =>
      if cancelAt ≤ p then (.cancelled, p + 1)
      else
        match ttsCollect cancelAt (p + 1) cs with
        | .error p2 => (.cancelled, p2)
        | .ok p2 =>
            if cs.isEmpty then safeTTSLoop cancelAt cs fuel p2
            else (.ok, p2)

/-- `safe_tts_synthesize` with its `max_retries = 3`. -/
def safe_tts_synthesize (cancelAt : Nat) (cs : List (List Nat)) (p : Nat) :
    SafeTTSRes × Nat :=
  safeTTSLoop cancelAt cs 3 p

structure DeliverRes where
  p : Nat
  drives : Nat
  events : List PipeEv
  broke : Bool
deriving DecidableEq

/-- The per-sentence audio delivery loop: poll before each chunk (emitting
    the cancelled event and breaking when set), drive the avatar when it is
    available, and emit the audio-chunk progress event. -/
def deliverChunks (cancelAt : Nat) (dh : Bool) : Nat → List (List Nat) → DeliverRes
  | p, [] => ⟨p, 0, [], false⟩
  | p, _ :: rest =>
      if cancelAt ≤ p then ⟨p + 1, 0, [.cancelledEv], true⟩
      else
        let r := deliverChunks cancelAt dh (p + 1) rest
        ⟨r.p, (if dh then 1 else 0) + r.drives, .audioChunkEv :: r.events, r.broke⟩

inductive LoopExit where
  | normal
  | cancelledErr
deriving DecidableEq

structure LlmRes where
  p : Nat
  text_buffer : String
  sentence_buffer : String
  events : List PipeEv
  drives : Nat
  exit : LoopExit

/-- The LLM chunk loop: poll at the top of each iteration (cancelled event
    plus break when set), emit the text chunk, and when the sentence buffer
    holds a terminal mark emit sentence-complete, run `safe_tts_synthesize`
    (CancelledError escapes to the outer handler; a final failure emits the
    tts-error event), deliver the chunks, emit sentence-processed, clear the
    buffer, and continue. -/
def llmLoop (ttsA : String → List (List Nat)) (cancelAt : Nat) (dh : Bool) :
    Nat → String → String → List String → LlmRes
  | p, tb, sb, [] => ⟨p, tb, sb, [], 0, .normal⟩
  | p, tb, sb, c :: rest =>
      if cancelAt ≤ p then ⟨p + 1, tb, sb, [.cancelledEv], 0, .normal⟩
      else
        let tb2 := tb ++ c
        let sb2 := sb ++ c
        if containsPunct sb2 then
          match safe_tts_synthesize cancelAt (ttsA (pyStrip sb2)) (p + 1) with
          | (.cancelled, p2) =>
              ⟨p2, tb2, sb2, [.textChunkEv, .sentenceCompleteEv], 0, .cancelledErr⟩
          | (.failed, p2) =>
              let r := llmLoop ttsA cancelAt dh p2 tb2 "" rest
              ⟨r.p, r.text_buffer, r.sentence_buffer,
               [.textChunkEv, .sentenceCompleteEv, .ttsErrorEv] ++ r.events,
               r.drives, r.exit⟩
          | (.ok, p2) =>
              let d := deliverChunks cancelAt dh p2 (ttsA (pyStrip sb2))
              let r := llmLoop ttsA cancelAt dh d.p tb2 "" rest
              ⟨r.p, r.text_buffer, r.sentence_buffer,
               [.textChunkEv, .sentenceCompleteEv] ++ d.events
                 ++ [.sentenceProcessedEv] ++ r.events,
               d.drives + r.drives, r.exit⟩
        else
          let r := llmLoop ttsA cancelAt dh (p + 1) tb2 sb2 rest
          ⟨r.p, r.text_buffer, r.sentence_buffer, .textChunkEv :: r.events,
           r.drives, r.exit⟩

structure PipeRes where
  events : List PipeEv
  drives : Nat
  registry : Registry

/-- Outcome of the remaining-text block: final poll counter, its events, its
    avatar drives, and whether its TTS call observed cancellation (escaping
    to the outer CancelledError handler). -/
def finalSentenceBlock (ttsA : String → List (List Nat)) (cancelAt : Nat)
    (dh : Bool) (sb : String) (p : Nat) : Nat × List PipeEv × Nat × Bool :=
  if pyStrip sb ≠ "" then
    if cancelAt ≤ p then (p + 1, [], 0, false)
    else
      match safe_tts_synthesize cancelAt (ttsA (pyStrip sb)) (p + 1) with
      | (.cancelled, p2) => (p2, [.finalSentenceEv], 0, true)
      | (.failed, p2) => (p2, [.finalSentenceEv, .finalTtsErrorEv], 0, false)
      | (.ok, p2) =>
          (p2, .finalSentenceEv :: (ttsA (pyStrip sb)).map (fun _ => PipeEv.finalAudioChunkEv),
           if dh then (ttsA (pyStrip sb)).length else 0, false)
  else (p, [], 0, false)

/-- The whole `stream_pipeline` generator body: registration, the start
    event, the entry poll, the LLM loop, the remaining-text block (whose
    guard polls only when the stripped buffer is nonempty, and whose
    delivery loop has no cancellation polls), the guarded
    finish-streaming-audio call, the unconditional completion event, the
    cancelled event of the CancelledError handler, and the `finally` that
    releases the registry entry. -/
def stream_pipeline (ttsA : String → List (List Nat)) (llm : List String)
    (cancelAt : Nat) (dh : Bool) (r0 : Registry) (session_id : String)
    (live_id : Option String) : PipeRes :=
  let r1 := register_stream_session r0 session_id live_id
  if cancelAt ≤ 0 then
    ⟨[.startEv, .cancelledEv], 0, cleanup_stream_session r1 session_id⟩
  else
    let L := llmLoop ttsA cancelAt dh 1 "" "" llm
    match L.exit with
    | .cancelledErr =>
        ⟨.startEv :: L.events ++ [.cancelledEv], L.drives,
         cleanup_stream_session r1 session_id⟩
    | .normal =>
        let F := finalSentenceBlock ttsA cancelAt dh L.sentence_buffer L.p
        if F.2.2.2 then
          ⟨.startEv :: L.events ++ F.2.1 ++ [.cancelledEv], L.drives + F.2.2.1,
           cleanup_stream_session r1 session_id⟩
        else
          ⟨.startEv :: L.events ++ F.2.1 ++ [.completeEv], L.drives + F.2.2.1,
           cleanup_stream_session r1 session_id⟩

theorem ttsCollect_ok (cancelAt : Nat) (cs : List (List Nat)) (p : Nat)
    (h : p + cs.length ≤ cancelAt) :
    ttsCollect cancelAt p cs = .ok (p + cs.length) := by
  induction cs generalizing p with
  | nil => simp [ttsCollect]
  | cons c rest ih =>
      simp only [List.length_cons] at h
      unfold ttsCollect
      rw [if_neg (by omega), ih (p + 1) (by omega)]
      congr 1
      simp
      omega

theorem ttsCollect_trip (cancelAt : Nat) (cs : List (List Nat)) (p j : Nat)
    (hj : j < cs.length) (hc : cancelAt = p + j) :
    ttsCollect cancelAt p cs = .error (p + j + 1) := by
  induction cs generalizing p j with
  | nil => simp at hj
  | cons c rest ih =>
      unfold ttsCollect
      cases j with
      | zero => rw [if_pos (by omega)]
      | succ j2 =>
          simp only [List.length_cons] at hj
          rw [if_neg (by omega), ih (p + 1) j2 (by omega) (by omega)]
          congr 1
          omega

theorem deliverChunks_trip (cancelAt : Nat) (dh : Bool) (cs : List (List Nat))
    (p k : Nat) (hk : k < cs.length) (hc : cancelAt = p + k) :
    deliverChunks cancelAt dh p cs
      = ⟨p + k + 1, if dh then k else 0,
         List.replicate k .audioChunkEv ++ [.cancelledEv], true⟩ := by
  induction cs generalizing p k with
  | nil => simp at hk
  | cons c rest ih =>
      unfold deliverChunks
      cases k with
      | zero =>
          rw [if_pos (by omega)]
          cases dh <;> simp
      | succ k2 =>
          simp only [List.length_cons] at hk
          rw [if_neg (by omega), ih (p + 1) k2 (by omega) (by omega)]
          cases dh <;> simp [List.replicate_succ] <;> omega

theorem safe_tts_ok (cancelAt : Nat) (cs : List (List Nat)) (p : Nat)
    (hne : cs ≠ []) (h : p + 1 + cs.length ≤ cancelAt) :
    safe_tts_synthesize cancelAt cs p = (.ok, p + 1 + cs.length) := by
  have hemp : cs.isEmpty = false := by
    cases cs with
    | nil => exact absurd rfl hne
    | cons c rest => rfl
  unfold safe_tts_synthesize
  rw [show (3 : Nat) = 2 + 1 from rfl]
  unfold safeTTSLoop
  rw [if_neg (by omega), ttsCollect_ok cancelAt cs (p + 1) (by omega), hemp]
  simp

theorem safe_tts_collect_cancel (cancelAt : Nat) (cs : List (List Nat)) (p j : Nat)
    (hp : p < cancelAt) (hj : j < cs.length) (hc : cancelAt = p + 1 + j) :
    safe_tts_synthesize cancelAt cs p = (.cancelled, p + 1 + j + 1) := by
  unfold safe_tts_synthesize
  rw [show (3 : Nat) = 2 + 1 from rfl]
  unfold safeTTSLoop
  rw [if_neg (by omega), ttsCollect_trip cancelAt cs (p + 1) j hj (by omega)]

theorem lookupA_register (r0 : Registry) (sid : String) (live : Option String) :
    lookupA (register_stream_session r0 sid live).active_streams sid
      = some { live_id := live, cancel_set := false } := by
  unfold register_stream_session
  cases live with
  | none => exact lookupA_setA_self _ _ _
  | some l =>
      dsimp only
      exact lookupA_setA_self _ _ _

theorem llmLoop_single_delivery (cs : List (List Nat)) (k : Nat) (s : String)
    (hk : k < cs.length) (hs : containsPunct s = true) :
    llmLoop (fun _ => cs) (3 + cs.length + k) true 1 "" "" [s]
      = ⟨3 + cs.length + k + 1, s, "",
         [.textChunkEv, .sentenceCompleteEv]
           ++ (List.replicate k .audioChunkEv ++ [.cancelledEv])
           ++ [.sentenceProcessedEv] ++ [],
         k, .normal⟩ := by
  unfold llmLoop
  rw [if_neg (by omega)]
  have hsA : containsPunct (("" : String) ++ s) = true := hs
  have hne : cs ≠ [] := by
    intro hcontra
    rw [hcontra] at hk
    simp at hk
  simp only [hsA, if_true]
  rw [safe_tts_ok (3 + cs.length + k) cs (1 + 1) hne (by omega)]
  dsimp only
  rw [deliverChunks_trip (3 + cs.length + k) true cs (1 + 1 + 1 + cs.length) k hk
      (by omega)]
  simp only [llmLoop]
  congr 1 <;> first | omega | rfl | simp

theorem llmLoop_single_synthesis (cs : List (List Nat)) (k : Nat) (s : String)
    (hk : k < cs.length) (hs : containsPunct s = true) :
    llmLoop (fun _ => cs) (3 + k) true 1 "" "" [s]
      = ⟨3 + k + 1, s, s, [.textChunkEv, .sentenceCompleteEv], 0, .cancelledErr⟩ := by
  unfold llmLoop
  rw [if_neg (by omega)]
  have hsA : containsPunct (("" : String) ++ s) = true := hs
  simp only [hsA, if_true]
  rw [safe_tts_collect_cancel (3 + k) cs (1 + 1) k (by omega) hk (by omega)]
  rfl

theorem finalSentenceBlock_empty (ttsA : String → List (List Nat))
    (cancelAt : Nat) (dh : Bool) (p : Nat) :
    finalSentenceBlock ttsA cancelAt dh "" p = (p, [], 0, false) := by
  unfold finalSentenceBlock
  rw [if_neg (by simp [pyStrip])]

/-- C3 (amended).  Mid-stream cancellation, for a one-sentence query with at
    least one audio chunk and the avatar available.  Tripping the signal at
    the delivery poll of chunk `k` of the first sentence (after its TTS call
    returned) emits the cancelled event and stops the avatar after exactly
    `k` drive calls, but the pipeline then still emits sentence-processed
    and the unconditional complete event, so "cancelled" is emitted yet not
    terminal.  Tripping the signal during the TTS synthesis itself makes
    "cancelled" the terminal event with zero drive calls.  In both cases the
    `finally` block removes the session from the primary table and from the
    room index of its registered room. -/
theorem C3_mid_stream_cancellation
    (cs : List (List Nat)) (k : Nat) (s : String) (r0 : Registry)
    (sid : String) (live : Option String)
    (hk : k < cs.length) (hs : containsPunct s = true) :
    ((stream_pipeline (fun _ => cs) [s] (3 + cs.length + k) true r0 sid live).events
        = [PipeEv.startEv, PipeEv.textChunkEv, PipeEv.sentenceCompleteEv]
          ++ List.replicate k PipeEv.audioChunkEv
          ++ [PipeEv.cancelledEv, PipeEv.sentenceProcessedEv, PipeEv.completeEv]
      ∧ (stream_pipeline (fun _ => cs) [s] (3 + cs.length + k) true r0 sid live).drives
          = k
      ∧ lookupA (stream_pipeline (fun _ => cs) [s] (3 + cs.length + k) true r0 sid
            live).registry.active_streams sid = none
      ∧ ∀ l ss, live = some l →
          lookupA (stream_pipeline (fun _ => cs) [s] (3 + cs.length + k) true r0 sid
              live).registry.live_to_sessions l = some ss → sid ∉ ss)
    ∧ ((stream_pipeline (fun _ => cs) [s] (3 + k) true r0 sid live).events
        = [PipeEv.startEv, PipeEv.textChunkEv, PipeEv.sentenceCompleteEv,
           PipeEv.cancelledEv]
      ∧ (stream_pipeline (fun _ => cs) [s] (3 + k) true r0 sid live).drives = 0
      ∧ lookupA (stream_pipeline (fun _ => cs) [s] (3 + k) true r0 sid
            live).registry.active_streams sid = none
      ∧ ∀ l ss, live = some l →
          lookupA (stream_pipeline (fun _ => cs) [s] (3 + k) true r0 sid
              live).registry.live_to_sessions l = some ss → sid ∉ ss) := by
  have hreg := cleanup_removes (register_stream_session r0 sid live) sid
      { live_id := live, cancel_set := false } (lookupA_register r0 sid live)
  constructor
  · have ha : stream_pipeline (fun _ => cs) [s] (3 + cs.length + k) true r0 sid live
        = ⟨[PipeEv.startEv, PipeEv.textChunkEv, PipeEv.sentenceCompleteEv]
            ++ List.replicate k PipeEv.audioChunkEv
            ++ [PipeEv.cancelledEv, PipeEv.sentenceProcessedEv, PipeEv.completeEv],
           k, cleanup_stream_session (register_stream_session r0 sid live) sid⟩ := by
      unfold stream_pipeline
      rw [if_neg (by omega)]
      rw [llmLoop_single_delivery cs k s hk hs]
      dsimp only
      rw [finalSentenceBlock_empty]
      dsimp only
      simp
    rw [ha]
    exact ⟨rfl, rfl, hreg.1, hreg.2⟩
  · have hb : stream_pipeline (fun _ => cs) [s] (3 + k) true r0 sid live
        = ⟨[PipeEv.startEv, PipeEv.textChunkEv, PipeEv.sentenceCompleteEv,
            PipeEv.cancelledEv],
           0, cleanup_stream_session (register_stream_session r0 sid live) sid⟩ := by
      unfold stream_pipeline
      rw [if_neg (by omega)]
      rw [llmLoop_single_synthesis cs k s hk hs]
      dsimp only
      simp
    rw [hb]
    exact ⟨rfl, rfl, hreg.1, hreg.2⟩

/-- C3 counterexample.  With two audio chunks for the single sentence and the
    signal tripping after the first chunk was delivered (after the TTS call
    was issued, before delivery completed), the pipeline does emit the
    cancelled event but its terminal event is the unconditional complete
    event, contradicting the claim that "cancelled" is the terminal event. -/
theorem C3_terminal_event_counterexample :
    PipeEv.cancelledEv
        ∈ (stream_pipeline (fun _ => [[1], [2]]) ["Hi."] 6 true emptyRegistry
            "s1" (some "room1")).events
    ∧ (stream_pipeline (fun _ => [[1], [2]]) ["Hi."] 6 true emptyRegistry
          "s1" (some "room1")).events.getLast? ≠ some PipeEv.cancelledEv := by
  decide

/-- C3 witness: the amended scenario at two audio chunks, trip at the second
    delivery poll (delivery case) and at the second collection poll
    (synthesis case). -/
theorem C3_mid_stream_cancellation_witness :
    ((stream_pipeline (fun _ => [[1], [2]]) ["Hi."] (3 + [[1], [2]].length + 1) true
          emptyRegistry "s1" (some "room1")).events
        = [PipeEv.startEv, PipeEv.textChunkEv, PipeEv.sentenceCompleteEv]
          ++ List.replicate 1 PipeEv.audioChunkEv
          ++ [PipeEv.cancelledEv, PipeEv.sentenceProcessedEv, PipeEv.completeEv]
      ∧ (stream_pipeline (fun _ => [[1], [2]]) ["Hi."] (3 + [[1], [2]].length + 1) true
            emptyRegistry "s1" (some "room1")).drives = 1
      ∧ lookupA (stream_pipeline (fun _ => [[1], [2]]) ["Hi."]
            (3 + [[1], [2]].length + 1) true emptyRegistry "s1"
            (some "room1")).registry.active_streams "s1" = none
      ∧ ∀ l ss, (some "room1" : Option String) = some l →
          lookupA (stream_pipeline (fun _ => [[1], [2]]) ["Hi."]
              (3 + [[1], [2]].length + 1) true emptyRegistry "s1"
              (some "room1")).registry.live_to_sessions l = some ss → "s1" ∉ ss)
    ∧ ((stream_pipeline (fun _ => [[1], [2]]) ["Hi."] (3 + 1) true emptyRegistry
          "s1" (some "room1")).events
        = [PipeEv.startEv, PipeEv.textChunkEv, PipeEv.sentenceCompleteEv,
           PipeEv.cancelledEv]
      ∧ (stream_pipeline (fun _ => [[1], [2]]) ["Hi."] (3 + 1) true emptyRegistry
            "s1" (some "room1")).drives = 0
      ∧ lookupA (stream_pipeline (fun _ => [[1], [2]]) ["Hi."] (3 + 1) true
            emptyRegistry "s1" (some "room1")).registry.active_streams "s1" = none
      ∧ ∀ l ss, (some "room1" : Option String) = some l →
          lookupA (stream_pipeline (fun _ => [[1], [2]]) ["Hi."] (3 + 1) true
              emptyRegistry "s1"
              (some "room1")).registry.live_to_sessions l = some ss → "s1" ∉ ss) :=
  C3_mid_stream_cancellation [[1], [2]] 1 "Hi." emptyRegistry "s1" (some "room1")
    (by decide) (by decide)

end DigitalHuman
